import Mathlib

/-!
Shallow embedding of the post-earnings short-selling agent
(`config.py`, `step3_surge_detect.py`, `step4_slowdown_detect.py`,
`step8_monitor.py`, `step9_cover.py`, `agent_complete.py`, `nodes.py`,
`market_data.py`) and theorems about it.

Python floats are modelled as exact rationals (`ℚ`); the float literals
`0.3`, `0.4`, `1.5`, … in `config.py` become the corresponding rationals.
`round(x, 2)` is modelled by `round2` below; Python rounds half-to-even
while `round2` rounds half-up, a difference only visible at exact
half-cent values, which none of the statements here exercise.
External effects (market-data fetches, broker order placement, the LLM)
are passed in as explicit arguments, so every function of the source
becomes a pure function of its inputs plus the values its external
calls would return.
-/

/-- Model of Python `round(x, 2)`. -/
def round2 (x : ℚ) : ℚ := (round (x * 100) : ℤ) / 100

/-- Config constant `SURGE_THRESHOLD = 8.0` (percent). -/
def SURGE_THRESHOLD : ℚ := 8

/-- Config constant `SLOWDOWN_PRICE_CHANGE = 0.3` (percent). -/
def SLOWDOWN_PRICE_CHANGE : ℚ := 3 / 10

/-- Config constant `VOLUME_DROP_THRESHOLD = 0.4` (fraction). -/
def VOLUME_DROP_THRESHOLD : ℚ := 2 / 5

/-- Config constant `PULLBACK_FROM_HIGH = 1.5` (percent). -/
def PULLBACK_FROM_HIGH : ℚ := 3 / 2

/-- Config constant `STOP_LOSS_HIGH_VOL = 0.08`. -/
def STOP_LOSS_HIGH_VOL : ℚ := 8 / 100

/-- Config constant `STOP_LOSS_MED_VOL = 0.06`. -/
def STOP_LOSS_MED_VOL : ℚ := 6 / 100

/-- Config constant `STOP_LOSS_LOW_VOL = 0.05`. -/
def STOP_LOSS_LOW_VOL : ℚ := 5 / 100

/-- Config constant `BATCH_SIZES = [0.30, 0.30, 0.40]`. -/
def BATCH_SIZES : List ℚ := [3 / 10, 3 / 10, 2 / 5]

/-- Config constant `MAX_SHORT_POSITION_PER_STOCK` (default `"10000"`). -/
def MAX_SHORT_POSITION_PER_STOCK : ℚ := 10000

/-- Config constant `MAX_DAYS_WAIT_COVER` (default `"7"`). -/
def MAX_DAYS_WAIT_COVER : ℕ := 7

/-- Config constant `AI_CONFIDENCE_THRESHOLD = 70`. -/
def AI_CONFIDENCE_THRESHOLD : ℕ := 70

/-- Config constant `PRICE_GUARD_MIN_GAIN` (default `"40"`). -/
def PRICE_GUARD_MIN_GAIN : ℚ := 40

-- ── Step 3: surge detection (`step3_surge_detect.py`) ──

/-- Result dict of `detect_surge`. -/
structure SurgeResult where
  surging : Bool
  surge_pct : ℚ
  current_price : ℚ
  pre_earnings_price : ℚ
  deriving Repr, DecidableEq

/-- Embedding of `detect_surge(ticker, pre_earnings_price)`.  The call
`get_current_price(ticker)` is passed in as the argument `current`. -/
def detect_surge (pre_earnings_price : ℚ) (current : ℚ) : SurgeResult :=
  if pre_earnings_price ≤ 0 then
    { surging := false, surge_pct := 0, current_price := 0,
      pre_earnings_price := pre_earnings_price }
  else if current ≤ 0 then
    { surging := false, surge_pct := 0, current_price := 0,
      pre_earnings_price := pre_earnings_price }
  else
    let surge_pct := (current - pre_earnings_price) / pre_earnings_price * 100
    { surging := decide (surge_pct ≥ SURGE_THRESHOLD),
      surge_pct := round2 surge_pct,
      current_price := current,
      pre_earnings_price := pre_earnings_price }

-- ── Step 4: surge peak (`step4_slowdown_detect.py`) ──

/-- Model of Python `max` on a (nonempty) list; returns 0 on `[]`,
a case the source never reaches because it guards on emptiness. -/
def listMax : List ℚ → ℚ
  | [] => 0
  | x :: xs => xs.foldl max x

/-- Embedding of `find_surge_peak(price_data)`: max of the last 6 bars,
0.0 if the price list is empty.  `prices[-6:]` for a list of length ≥ 6
is `drop (length - 6)`. -/
def find_surge_peak (prices : List ℚ) : ℚ :=
  if prices.isEmpty then 0
  else listMax (if 6 ≤ prices.length then prices.drop (prices.length - 6) else prices)

-- ── Step 4: hard rules (`step4_slowdown_detect.py`) ──

/-- Result dict of `check_hard_rules`. -/
structure HardRules where
  passed : Bool
  rules_met : ℕ
  rule1_momentum_slow : Bool
  rule2_volume_drop : Bool
  rule3_pullback : Bool
  surge_peak_used : ℚ
  deriving Repr, DecidableEq

/-- Embedding of `check_hard_rules(price_data)`.  The dict keys
`prices`, `volumes` and `current_price` are passed as arguments
(`.get` defaults apply when the keys are missing, so the lists default
to `[]` and the current price to `0.0`). -/
def check_hard_rules (prices volumes : List ℚ) (current : ℚ) : HardRules :=
  let surge_peak := find_surge_peak prices
  let rule1 :=
    if 2 ≤ prices.length then
      let p2 := prices.getD (prices.length - 2) 0
      let p1 := prices.getD (prices.length - 1) 0
      if p2 ≠ 0 then decide (|(p1 - p2) / p2 * 100| < SLOWDOWN_PRICE_CHANGE)
      else false
    else false
  let rule2 :=
    if 7 ≤ volumes.length then
      let prior_avg := ((volumes.drop (volumes.length - 7)).take 6).sum / 6
      let vlast := volumes.getD (volumes.length - 1) 0
      if prior_avg > 0 then decide ((prior_avg - vlast) / prior_avg ≥ VOLUME_DROP_THRESHOLD)
      else false
    else false
  let rule3 :=
    if surge_peak > 0 ∧ current > 0 then
      decide ((surge_peak - current) / surge_peak * 100 ≥ PULLBACK_FROM_HIGH)
    else false
  let rules_met := rule1.toNat + rule2.toNat + rule3.toNat
  { passed := decide (2 ≤ rules_met),
    rules_met := rules_met,
    rule1_momentum_slow := rule1,
    rule2_volume_drop := rule2,
    rule3_pullback := rule3,
    surge_peak_used := surge_peak }

-- ── Stop loss (`step4_slowdown_detect.py`, `market_data.py`) ──

/-- Embedding of `get_historical_volatility(ticker, period)` from
`market_data.py`.  `closes` is the list returned by
`get_daily_closes` (which itself returns `[]` on any fetch error);
`stdOutcome` stands for the numpy computation
`float(np.std(np.diff(closes) / closes[:-1] * 100))`, whose value is
irrational in general and is therefore passed in (`Except.error` models
the inner `try` raising, which the source converts to the 2.0
fallback).  Every failure path of the source returns 2.0; the function
never raises. -/
def get_historical_volatility (closes : List ℚ) (stdOutcome : Except String ℚ) : ℚ :=
  if closes.length < 5 then 2
  else
    match stdOutcome with
    | Except.ok v => v
    | Except.error _ => 2

/-- Embedding of `calculate_stop_loss(ticker, short_price)`.
`volOutcome` models the call `get_historical_volatility(ticker, "30d")`:
`Except.ok vol` when it returns `vol`, `Except.error` when it raises
(which the source catches, falling back to the 6% stop). -/
def calculate_stop_loss (volOutcome : Except String ℚ) (short_price : ℚ) : ℚ :=
  match volOutcome with
  | Except.ok vol =>
      if vol > 3 then round2 (short_price * (1 + STOP_LOSS_HIGH_VOL))
      else if vol > 2 then round2 (short_price * (1 + STOP_LOSS_MED_VOL))
      else round2 (short_price * (1 + STOP_LOSS_LOW_VOL))
  | Except.error _ => round2 (short_price * (1 + STOP_LOSS_MED_VOL))

-- ── Batched short entry (`agent_complete.py`, `short_in_batches`) ──

/-- Outcome of one tranche's broker interaction inside the entry loop:
either the order path completed (with `trade.orderStatus.avgFillPrice`
modelled as `Option ℚ`, `none` standing for a falsy fill price and
mapped to 0 by the source's `or 0`), or some call raised. -/
inductive TrancheOutcome where
  | ok (avgFillPrice : Option ℚ)
  | exn (msg : String)
  deriving Repr, DecidableEq

/-- The fill price the source ends up recording for an outcome. -/
def TrancheOutcome.fill : TrancheOutcome → ℚ
  | TrancheOutcome.ok p => p.getD 0
  | TrancheOutcome.exn _ => 0

/-- One entry of the `results` list built by the entry loop. -/
structure BatchEntry where
  batch : ℕ
  shares : ℕ
  fill_price : ℚ
  error : Option String
  deriving Repr, DecidableEq

/-- Tranche sizing `math.floor(total_shares * pct)`. -/
def trancheSize (total : ℕ) (pct : ℚ) : ℕ := (⌊(total : ℚ) * pct⌋).toNat

/-- The three tranche sizes for a given total share count. -/
def batchShares (total : ℕ) : List ℕ := BATCH_SIZES.map (trancheSize total)

/-- The `results` entry one loop iteration appends. -/
def trancheRecord (i shares : ℕ) : TrancheOutcome → BatchEntry
  | TrancheOutcome.ok p =>
      { batch := i + 1, shares := shares, fill_price := p.getD 0, error := none }
  | TrancheOutcome.exn m =>
      { batch := i + 1, shares := 0, fill_price := 0, error := some m }

/-- Return dict of `short_in_batches`: the early-exit branches carry
only `success=False` and a reason; the terminal branch carries
`success=True` with the fill data. -/
inductive ShortResult where
  | failure (reason : String)
  | filled (ticker : String) (total_shares_shorted : ℕ) (avg_fill_price : ℚ)
      (batches : List BatchEntry)
  deriving Repr, DecidableEq

/-- The `success` key of a `short_in_batches` result. -/
def ShortResult.success : ShortResult → Bool
  | ShortResult.failure _ => false
  | ShortResult.filled _ _ _ _ => true

/-- Python division raising `ZeroDivisionError` on a zero denominator. -/
def safeDiv (a : ℚ) (b : ℕ) : Option ℚ := if b = 0 then none else some (a / b)

/-- Embedding of `short_in_batches(ticker, entry_price)` from
`agent_complete.py`.  `connected` models whether `connect_ibkr()`
succeeded; `outcomes i` models the broker interaction of tranche `i`.
The result is `none` exactly when the function would raise
(a `ZeroDivisionError` in the average computation); a `some` is a
normal return. -/
def short_in_batches (ticker : String) (entry_price : ℚ) (connected : Bool)
    (outcomes : ℕ → TrancheOutcome) : Option ShortResult :=
  if entry_price ≤ 0 then
    some (ShortResult.failure "Invalid entry price (zero or negative)")
  else
    let total_shares := (⌊MAX_SHORT_POSITION_PER_STOCK / entry_price⌋).toNat
    if total_shares < 3 then some (ShortResult.failure "Too few shares")
    else if ¬connected then some (ShortResult.failure "IBKR not connected")
    else
      let results := (List.range BATCH_SIZES.length).map fun i =>
        trancheRecord i (trancheSize total_shares (BATCH_SIZES.getD i 0)) (outcomes i)
      let total_filled := (results.map BatchEntry.shares).sum
      let fills := results.filter fun r => decide (0 < r.fill_price)
      match safeDiv ((fills.map BatchEntry.fill_price).sum) (max fills.length 1) with
      | none => none
      | some avg => some (ShortResult.filled ticker total_filled (round2 avg) results)

-- ── Step 8: position monitor (`step8_monitor.py`) ──

/-- The `action` key of a monitor result. -/
inductive ExitAction where
  | stop_loss
  | take_profit
  | timeout
  deriving Repr, DecidableEq

/-- Return dict of `monitor_position`. -/
structure MonitorResult where
  action : ExitAction
  price : ℚ
  days_held : ℚ
  deriving Repr, DecidableEq

/-- Embedding of `_take_profit_target(short_price)`: fixed 3% below the
short entry. -/
def take_profit_target (short_price : ℚ) : ℚ := short_price * (97 / 100)

/-- Embedding of the polling loop body of `monitor_position`.  `ticks`
is the finite sequence of prices `get_current_price` returns during the
holding window (one entry per 5-minute poll until the wall clock passes
`MAX_DAYS_WAIT_COVER` days); `final` is the price fetched by the
timeout branch after the loop; `i` counts completed polls, so elapsed
wall-clock time is modelled as `i` poll intervals of 300 seconds. -/
def monitorLoop (stop target final : ℚ) (i : ℕ) : List ℚ → MonitorResult
  | [] => { action := ExitAction.timeout, price := final,
            days_held := (MAX_DAYS_WAIT_COVER : ℚ) }
  | p :: rest =>
    if p ≤ 0 then monitorLoop stop target final (i + 1) rest
    else if stop ≤ p then
      { action := ExitAction.stop_loss, price := p,
        days_held := (i * 300 : ℕ) / 86400 }
    else if p ≤ target then
      { action := ExitAction.take_profit, price := p,
        days_held := (i * 300 : ℕ) / 86400 }
    else monitorLoop stop target final (i + 1) rest

/-- Embedding of `monitor_position(ticker, short_price, stop_loss)`. -/
def monitor_position (short_price stop_loss : ℚ) (ticks : List ℚ) (final : ℚ) :
    MonitorResult :=
  monitorLoop stop_loss (take_profit_target short_price) final 0 ticks

/-- A tick on which the loop exits: the fetched price is positive and
satisfies the stop-loss or the take-profit condition. -/
def tickTriggers (stop target p : ℚ) : Bool :=
  decide (0 < p) && (decide (stop ≤ p) || decide (p ≤ target))

-- ── Step 9: cover (`agent_complete.py` `cover_short_in_batches`, `step9_cover.py`) ──

/-- One entry of the cover loop's `results` list: the exception branch
appends only `batch` and `error`, so `shares` and `fill_price` are
optional. -/
structure CoverEntry where
  batch : ℕ
  shares : Option ℕ
  fill_price : Option ℚ
  error : Option String
  deriving Repr, DecidableEq

/-- The `results` entry one cover-loop iteration appends. -/
def coverRecord (i shares : ℕ) : TrancheOutcome → CoverEntry
  | TrancheOutcome.ok p =>
      { batch := i + 1, shares := some shares, fill_price := some (p.getD 0),
        error := none }
  | TrancheOutcome.exn m =>
      { batch := i + 1, shares := none, fill_price := none, error := some m }

/-- Return dict of the batched cover: the broker-unreachable branch
carries only `success=False` — no `avg_cover_price` key — while the
terminal branch carries `success=True` with the rounded average. -/
inductive CoverBatchResult where
  | failure
  | covered (avg_cover_price : ℚ)
  deriving Repr, DecidableEq

/-- The `success` key of a cover result. -/
def CoverBatchResult.success : CoverBatchResult → Bool
  | CoverBatchResult.failure => false
  | CoverBatchResult.covered _ => true

/-- The `avg_cover_price` key of a cover result, `none` when absent. -/
def CoverBatchResult.avgCover : CoverBatchResult → Option ℚ
  | CoverBatchResult.failure => none
  | CoverBatchResult.covered a => some a

/-- Embedding of `cover_short_in_batches(ticker, total_shares, reason)`
from `agent_complete.py`; as for the entry, `connected` models
`connect_ibkr()` and `outcomes i` the broker interaction of tranche
`i`, and `none` models an uncaught `ZeroDivisionError`. -/
def cover_short_in_batches (total_shares : ℕ) (connected : Bool)
    (outcomes : ℕ → TrancheOutcome) : Option CoverBatchResult :=
  if ¬connected then some CoverBatchResult.failure
  else
    let results := (List.range BATCH_SIZES.length).map fun i =>
      coverRecord i (trancheSize total_shares (BATCH_SIZES.getD i 0)) (outcomes i)
    let fills := results.filter fun r => decide (0 < r.fill_price.getD 0)
    match safeDiv ((fills.map fun r => r.fill_price.getD 0).sum) (max fills.length 1) with
    | none => none
    | some avg => some (CoverBatchResult.covered (round2 avg))

/-- Return dict of `execute_cover` after it attaches `profit_loss` and
`days_held` to the broker result. -/
structure CoverFinal where
  success : Bool
  avg_cover_price : Option ℚ
  profit_loss : ℚ
  days_held : ℚ
  deriving Repr, DecidableEq

/-- Embedding of `execute_cover(ticker, short_price, total_shares,
monitor_result)` from `step9_cover.py`; `result` is what the batched
cover call returned.  `cover_price` is read with
`.get("avg_cover_price", 0.0)`. -/
def execute_cover (short_price : ℚ) (total_shares : ℕ)
    (monitor_result : MonitorResult) (result : CoverBatchResult) : CoverFinal :=
  let cover_price := result.avgCover.getD 0
  let profit_loss := round2 ((short_price - cover_price) * total_shares)
  { success := result.success,
    avg_cover_price := result.avgCover,
    profit_loss := profit_loss,
    days_held := monitor_result.days_held }

-- ── Pipeline orchestration (`nodes.py`, `state.py`) ──

/-- One entry of the step-1 earnings list. -/
structure EarningsEntry where
  ticker : String
  earnings_date : String
  days_until : ℕ
  pre_earnings_price : ℚ
  deriving Repr, DecidableEq

/-- Return dict of `check_earnings_beat` (the keys `node_step2` reads). -/
structure BeatResult where
  beat : Bool
  beat_pct : ℚ
  qualifies : Bool
  deriving Repr, DecidableEq

/-- Return dict of `check_market_health`. -/
structure MarketHealth where
  healthy : Bool
  spy_change : ℚ
  qqq_change : ℚ
  deriving Repr, DecidableEq

/-- Return dict of `run_step3`; `surge` and `market` are `{}` (here
`none`) on the early-abort paths. -/
structure Step3Result where
  proceed : Bool
  surge : Option SurgeResult
  market : Option MarketHealth
  abort_reason : String
  deriving Repr, DecidableEq

/-- Return dict of `detect_slowdown`; keys that some branches omit are
`Option`s. -/
structure SlowdownResult where
  trigger : Bool
  current_price : Option ℚ
  hard_rules : Option HardRules
  stop_loss : Option ℚ
  abort_reason : String
  deriving Repr, DecidableEq

/-- Return dict of `run_step5` (the keys `nodes.py` reads). -/
structure VerifyResult where
  proceed : Bool
  confidence : ℕ
  deriving Repr, DecidableEq

/-- The `reason` value `node_step7` interpolates into its abort
message; Python renders the missing key of a success dict as `None`. -/
def ShortResult.reasonStr : ShortResult → String
  | ShortResult.failure r => r
  | ShortResult.filled _ _ _ _ => "None"

/-- The `avg_fill_price` key read with `.get(…, 0)`. -/
def ShortResult.avgFill : ShortResult → ℚ
  | ShortResult.failure _ => 0
  | ShortResult.filled _ _ a _ => a

/-- The `total_shares_shorted` key read with `.get(…, 0)`. -/
def ShortResult.totalShares : ShortResult → ℕ
  | ShortResult.failure _ => 0
  | ShortResult.filled _ n _ _ => n

/-- The LangGraph `AgentState` (`state.py`): one `Option` field per
stage result, `none` meaning the key has not been written, plus the
abort reason (`""` = still live, exactly the falsy value
`_should_continue` tests). -/
structure AgentState where
  earnings_list : Option (List EarningsEntry)
  ticker : Option String
  pre_earnings_price : Option ℚ
  earnings_beat : Option BeatResult
  surge_result : Option (Option SurgeResult)
  market_health : Option (Option MarketHealth)
  slowdown_result : Option SlowdownResult
  verify_result : Option VerifyResult
  approved : Option Bool
  short_result : Option ShortResult
  monitor_result : Option MonitorResult
  cover_result : Option CoverFinal
  abort_reason : String
  deriving Repr, DecidableEq

/-- The fresh state a pipeline invocation starts from: no stage result
written, empty abort reason. -/
def initState : AgentState :=
  { earnings_list := none, ticker := none, pre_earnings_price := none,
    earnings_beat := none, surge_result := none, market_health := none,
    slowdown_result := none, verify_result := none, approved := none,
    short_result := none, monitor_result := none, cover_result := none,
    abort_reason := "" }

/-- The external collaborators each node calls, one field per call
site in `nodes.py` (pipeline steps 1–9; `record_trade` of step 10 only
journals and returns nothing). -/
structure Env where
  earnings : List EarningsEntry
  beat : String → BeatResult
  step3 : String → ℚ → Step3Result
  slowdown : String → ℚ → SlowdownResult
  verify : String → SlowdownResult → VerifyResult
  approval : String → ℚ → ℚ → ℕ → ℕ → Bool
  short : String → ℚ → ℚ → ShortResult
  monitor : String → ℚ → ℚ → MonitorResult
  cover : String → ℚ → ℕ → MonitorResult → CoverFinal

/-- Fallback `SlowdownResult` for modelling dict reads of an unset key
(on executed paths the routing guarantees the key is set). -/
def emptySlowdown : SlowdownResult :=
  { trigger := false, current_price := none, hard_rules := none,
    stop_loss := none, abort_reason := "" }

/-- Embedding of `node_step1`. -/
def node_step1 (env : Env) (s : AgentState) : AgentState :=
  match env.earnings with
  | [] => { s with earnings_list := some [],
                   abort_reason := "Step 1: no upcoming earnings" }
  | e :: rest =>
      { s with earnings_list := some (e :: rest), ticker := some e.ticker,
               pre_earnings_price := some e.pre_earnings_price }

/-- Embedding of `node_step2`; the abort message's interpolated values
are elided (only its non-emptiness matters to the routing). -/
def node_step2 (env : Env) (s : AgentState) : AgentState :=
  let result := env.beat (s.ticker.getD "")
  let s1 := { s with earnings_beat := some result }
  if result.qualifies then s1
  else { s1 with abort_reason := "Step 2: earnings did not qualify" }

/-- Embedding of `node_step3`. -/
def node_step3 (env : Env) (s : AgentState) : AgentState :=
  let result := env.step3 (s.ticker.getD "") (s.pre_earnings_price.getD 0)
  let s1 := { s with surge_result := some result.surge,
                     market_health := some result.market }
  if result.proceed then s1
  else { s1 with abort_reason := "Step 3: " ++ result.abort_reason }

/-- Embedding of `node_step4`. -/
def node_step4 (env : Env) (s : AgentState) : AgentState :=
  let result := env.slowdown (s.ticker.getD "") (s.pre_earnings_price.getD 0)
  let s1 := { s with slowdown_result := some result }
  if result.trigger then s1
  else { s1 with abort_reason := "Step 4: " ++ result.abort_reason }

/-- Embedding of `node_step5`. -/
def node_step5 (env : Env) (s : AgentState) : AgentState :=
  let result := env.verify (s.ticker.getD "") (s.slowdown_result.getD emptySlowdown)
  let s1 := { s with verify_result := some result }
  if result.proceed then s1
  else { s1 with abort_reason := "Step 5: ReAct verification failed" }

/-- Embedding of `node_step6`. -/
def node_step6 (env : Env) (s : AgentState) : AgentState :=
  let slowdown := s.slowdown_result.getD emptySlowdown
  let verify := s.verify_result.getD { proceed := false, confidence := 0 }
  let approvedNow := env.approval (s.ticker.getD "")
    (slowdown.current_price.getD 0) (slowdown.stop_loss.getD 0)
    verify.confidence ((slowdown.hard_rules.map HardRules.rules_met).getD 0)
  let s1 := { s with approved := some approvedNow }
  if approvedNow then s1
  else { s1 with abort_reason := "Step 6: user rejected or timed out" }

/-- Embedding of `node_step7`. -/
def node_step7 (env : Env) (s : AgentState) : AgentState :=
  let slowdown := s.slowdown_result.getD emptySlowdown
  let result := env.short (s.ticker.getD "")
    (slowdown.current_price.getD 0) (slowdown.stop_loss.getD 0)
  let s1 := { s with short_result := some result }
  if result.success then s1
  else { s1 with abort_reason :=
    "Step 7: short execution failed — " ++ result.reasonStr }

/-- Embedding of `node_step8_9`. -/
def node_step8_9 (env : Env) (s : AgentState) : AgentState :=
  let short := s.short_result.getD (ShortResult.failure "")
  let slowdown := s.slowdown_result.getD emptySlowdown
  let monitorRes := env.monitor (s.ticker.getD "") short.avgFill
    (slowdown.stop_loss.getD 0)
  let s1 := { s with monitor_result := some monitorRes }
  let coverRes := env.cover (s.ticker.getD "") short.avgFill
    short.totalShares monitorRes
  { s1 with cover_result := some coverRes }

/-- Embedding of `node_step10`: `record_trade` only journals to disk,
so the state is returned unchanged. -/
def node_step10 (_env : Env) (s : AgentState) : AgentState := s

/-- The node sequence of `build_graph`, in wiring order. -/
def pipelineNodes (env : Env) : List (AgentState → AgentState) :=
  [node_step1 env, node_step2 env, node_step3 env, node_step4 env,
   node_step5 env, node_step6 env, node_step7 env, node_step8_9 env,
   node_step10 env]

/-- Orchestrator semantics of the conditional edges built by
`build_graph`: before handing the state to the next node,
`_should_continue` routes to END when `abort_reason` is truthy
(non-empty); the entry point runs unconditionally, which coincides with
this check because the initial abort reason is empty. -/
def chain : List (AgentState → AgentState) → AgentState → AgentState
  | [], s => s
  | n :: rest, s => if s.abort_reason ≠ "" then s else chain rest (n s)

/-- Full pipeline run over a fresh state. -/
def run_pipeline (env : Env) : AgentState := chain (pipelineNodes env) initState

/-- State after the orchestrator has routed through the first `k`
nodes of the sequence. -/
def stateAfter (env : Env) (k : ℕ) : AgentState :=
  chain ((pipelineNodes env).take k) initState

/-- Fields of stages later than the `k`-th executed one are unwritten:
stage 2 writes `earnings_beat`, stage 3 `surge_result` and
`market_health`, …, stage 8 `monitor_result` and `cover_result`
(stage 1 writes no later-checkable field and stage 10 writes none). -/
def laterUnwritten (k : ℕ) (s : AgentState) : Prop :=
  (k ≤ 1 → s.earnings_beat = none) ∧
  (k ≤ 2 → s.surge_result = none ∧ s.market_health = none) ∧
  (k ≤ 3 → s.slowdown_result = none) ∧
  (k ≤ 4 → s.verify_result = none) ∧
  (k ≤ 5 → s.approved = none) ∧
  (k ≤ 6 → s.short_result = none) ∧
  (k ≤ 7 → s.monitor_result = none ∧ s.cover_result = none)

/-- A concrete environment whose earnings calendar is empty, so stage 1
aborts immediately; all other collaborators are constant stubs that the
aborted run never reaches. -/
def envAbort1 : Env :=
  { earnings := [],
    beat := fun _ => { beat := false, beat_pct := 0, qualifies := false },
    step3 := fun _ _ => { proceed := false, surge := none, market := none,
                          abort_reason := "" },
    slowdown := fun _ _ => emptySlowdown,
    verify := fun _ _ => { proceed := false, confidence := 0 },
    approval := fun _ _ _ _ _ => false,
    short := fun _ _ _ => ShortResult.failure "",
    monitor := fun _ _ _ => { action := ExitAction.timeout, price := 0,
                              days_held := 0 },
    cover := fun _ _ _ _ => { success := false, avg_cover_price := none,
                              profit_loss := 0, days_held := 0 } }

-- ── Theorems ──

theorem foldl_max_mem (xs : List ℚ) (x : ℚ) : xs.foldl max x ∈ x :: xs := by
  induction xs generalizing x with
  | nil => simp [List.foldl]
  | cons y ys ih =>
    have h := ih (max x y)
    show ys.foldl max (max x y) ∈ x :: y :: ys
    rcases List.mem_cons.mp h with h1 | h2
    · rcases max_choice x y with hx | hy
      · rw [h1, hx]; exact List.mem_cons_self _ _
      · rw [h1, hy]; exact List.mem_cons_of_mem _ (List.mem_cons_self _ _)
    · exact List.mem_cons_of_mem _ (List.mem_cons_of_mem _ h2)

theorem le_foldl_max (xs : List ℚ) (x : ℚ) :
    x ≤ xs.foldl max x ∧ ∀ y ∈ xs, y ≤ xs.foldl max x := by
  induction xs generalizing x with
  | nil => simp
  | cons z zs ih =>
    have h := ih (max x z)
    refine ⟨le_trans (le_max_left x z) h.1, ?_⟩
    intro y hy
    rcases List.mem_cons.mp hy with rfl | hmem
    · exact le_trans (le_max_right x y) h.1
    · exact h.2 y hmem

theorem listMax_spec (l : List ℚ) (hne : l ≠ []) :
    listMax l ∈ l ∧ ∀ x ∈ l, x ≤ listMax l := by
  cases l with
  | nil => exact absurd rfl hne
  | cons a t =>
    refine ⟨foldl_max_mem t a, ?_⟩
    intro x hx
    rcases List.mem_cons.mp hx with rfl | hmem
    · exact (le_foldl_max t x).1
    · exact (le_foldl_max t a).2 x hmem

/-- C5: `find_surge_peak` returns 0 on the empty window, `p` on `[p]`,
and for windows of length ≥ 6 it is the maximum of the most recent 6
samples; an 8-element window whose global max sits among the first two
elements illustrates that the global max is not used. -/
theorem find_surge_peak_spec :
    find_surge_peak [] = 0 ∧
    (∀ p : ℚ, find_surge_peak [p] = p) ∧
    (∀ l : List ℚ, 6 ≤ l.length →
      find_surge_peak l ∈ l.drop (l.length - 6) ∧
      ∀ x ∈ l.drop (l.length - 6), x ≤ find_surge_peak l) ∧
    find_surge_peak [9, 10, 1, 2, 3, 4, 5, 6] = 6 := by
  refine ⟨rfl, ?_, ?_, by decide⟩
  · intro p
    simp [find_surge_peak, listMax]
  · intro l hl
    have hne : l ≠ [] := by
      intro h; rw [h] at hl; simp at hl
    have hlen : (l.drop (l.length - 6)).length = 6 := by
      rw [List.length_drop]; omega
    have hdne : l.drop (l.length - 6) ≠ [] := by
      intro h; rw [h] at hlen; simp at hlen
    have hpeak : find_surge_peak l = listMax (l.drop (l.length - 6)) := by
      unfold find_surge_peak
      rw [if_neg (by simpa [List.isEmpty_iff] using hne), if_pos hl]
    rw [hpeak]
    exact listMax_spec _ hdne

/-- Witness for `find_surge_peak_spec` at the concrete 8-element window. -/
theorem find_surge_peak_spec_witness :
    find_surge_peak ([9, 10, 1, 2, 3, 4, 5, 6] : List ℚ) ∈
      ([9, 10, 1, 2, 3, 4, 5, 6] : List ℚ).drop 2 :=
  have h := (find_surge_peak_spec.2.2.1 [9, 10, 1, 2, 3, 4, 5, 6] (by decide)).1
  h

/-- C3: for positive baseline and positive fetched price, `detect_surge`
reports surging exactly when the percentage gain over the baseline is at
least `SURGE_THRESHOLD`; for a non-positive baseline or price it reports
`surging = false` with `surge_pct = 0`. -/
theorem detect_surge_spec (p c : ℚ) :
    (0 < p → 0 < c →
      ((detect_surge p c).surging = true ↔ (c - p) / p * 100 ≥ SURGE_THRESHOLD)) ∧
    (p ≤ 0 ∨ c ≤ 0 →
      (detect_surge p c).surging = false ∧ (detect_surge p c).surge_pct = 0) := by
  constructor
  · intro hp hc
    unfold detect_surge
    rw [if_neg (by exact not_le.mpr hp), if_neg (by exact not_le.mpr hc)]
    simp
  · intro h
    rcases h with hp | hc
    · unfold detect_surge
      rw [if_pos hp]
      exact ⟨rfl, rfl⟩
    · unfold detect_surge
      by_cases hp : p ≤ 0
      · rw [if_pos hp]; exact ⟨rfl, rfl⟩
      · rw [if_neg hp, if_pos hc]; exact ⟨rfl, rfl⟩

/-- Witness for `detect_surge_spec`: baseline 200, current 216 is exactly
an 8% surge, so `surging = true`. -/
theorem detect_surge_spec_witness : (detect_surge 200 216).surging = true :=
  ((detect_surge_spec 200 216).1 (by norm_num) (by norm_num)).mpr
    (by norm_num [SURGE_THRESHOLD])

/-- C4: `check_hard_rules` passes exactly when at least 2 of its three
rule booleans hold; rule 2 is false with fewer than 7 volume samples;
rule 3 is false unless both surge peak and current price are positive. -/
theorem check_hard_rules_spec (prices volumes : List ℚ) (current : ℚ) :
    ((check_hard_rules prices volumes current).passed = true ↔
      2 ≤ (check_hard_rules prices volumes current).rule1_momentum_slow.toNat +
          (check_hard_rules prices volumes current).rule2_volume_drop.toNat +
          (check_hard_rules prices volumes current).rule3_pullback.toNat) ∧
    (volumes.length < 7 →
      (check_hard_rules prices volumes current).rule2_volume_drop = false) ∧
    (¬((check_hard_rules prices volumes current).surge_peak_used > 0 ∧ current > 0) →
      (check_hard_rules prices volumes current).rule3_pullback = false) := by
  refine ⟨by simp [check_hard_rules], ?_, ?_⟩
  · intro hlt
    simp only [check_hard_rules]
    rw [if_neg (by omega)]
  · intro hno
    simp only [check_hard_rules] at hno ⊢
    rw [if_neg hno]

/-- Witness for `check_hard_rules_spec`: a 2-price, 1-volume window with
zero current price has rule 2 and rule 3 false, and passes only if 2 of
3 rules hold (here only rule 1 holds, so it does not pass). -/
theorem check_hard_rules_spec_witness :
    (check_hard_rules [100, 100] [5] 0).rule2_volume_drop = false ∧
    (check_hard_rules [100, 100] [5] 0).rule3_pullback = false :=
  ⟨(check_hard_rules_spec [100, 100] [5] 0).2.1 (by decide),
   (check_hard_rules_spec [100, 100] [5] 0).2.2 (by decide)⟩

/-- C2: with unavailable volatility data (fewer than 5 daily closes),
`get_historical_volatility` returns its 2.0 fallback without raising;
`calculate_stop_loss` then takes the strict `vol > 2.0` comparison to be
false and lands in the low tier, returning `round(200 × 1.05, 2) = 210`
rather than the middle-tier `round(200 × 1.06, 2) = 212` that both the
claim and the function's own docstring describe.  (Only when the
volatility call itself raises — which the real one never does — does the
`except` branch produce 212.) -/
theorem calculate_stop_loss_unavailable_uses_low_tier :
    calculate_stop_loss
        (Except.ok (get_historical_volatility [] (Except.ok 0))) 200 = 210 ∧
    round2 (200 * (1 + STOP_LOSS_MED_VOL)) = 212 ∧
    calculate_stop_loss (Except.error "err") 200 = 212 := by
  refine ⟨?_, ?_, ?_⟩ <;>
    norm_num [calculate_stop_loss, get_historical_volatility, round2,
      STOP_LOSS_MED_VOL, STOP_LOSS_LOW_VOL, round_eq]

theorem trancheSize_eq (n a b : ℕ) :
    trancheSize n ((a : ℚ) / (b : ℚ)) = n * a / b := by
  unfold trancheSize
  rw [Int.floor_toNat]
  have hcast : (n : ℚ) * ((a : ℚ) / (b : ℚ)) = ((n * a : ℕ) : ℚ) / ((b : ℕ) : ℚ) := by
    push_cast; ring
  rw [hcast, Nat.floor_div_nat, Nat.floor_natCast]

theorem trancheSize_three_tenths (n : ℕ) : trancheSize n (3 / 10 : ℚ) = n * 3 / 10 := by
  have h := trancheSize_eq n 3 10
  norm_num at h
  exact h

theorem trancheSize_two_fifths (n : ℕ) : trancheSize n (2 / 5 : ℚ) = n * 2 / 5 := by
  have h := trancheSize_eq n 2 5
  norm_num at h
  exact h

/-- C6: the three tranche sizes `floor(0.30·n)`, `floor(0.30·n)`,
`floor(0.40·n)` never sum to more than the total `n`, and for `n = 100`
they are exactly `[30, 30, 40]`. -/
theorem batchShares_spec (n : ℕ) :
    (batchShares n).sum ≤ n ∧ batchShares 100 = [30, 30, 40] := by
  constructor
  · have b3 := Nat.div_mul_le_self (n * 3) 10
    have b4 := Nat.div_mul_le_self (n * 2) 5
    simp [batchShares, BATCH_SIZES, trancheSize_three_tenths, trancheSize_two_fifths]
    omega
  · simp [batchShares, BATCH_SIZES, trancheSize_three_tenths, trancheSize_two_fifths]

/-- C1: an entry batch in which every tranche errors (so no tranche
fills and every recorded fill price is 0) still returns
`success = True` with `avg_fill_price = 0.0` — `short_in_batches` never
reports failure once the guards are passed, contrary to the claim that
a zero-fill batch reports `success = false`. -/
theorem short_in_batches_zero_fills_success :
    short_in_batches "TSLA" 100 true (fun _ => TrancheOutcome.exn "boom") =
      some (ShortResult.filled "TSLA" 0 0
        [{ batch := 1, shares := 0, fill_price := 0, error := some "boom" },
         { batch := 2, shares := 0, fill_price := 0, error := some "boom" },
         { batch := 3, shares := 0, fill_price := 0, error := some "boom" }]) ∧
    (short_in_batches "TSLA" 100 true
        (fun _ => TrancheOutcome.exn "boom")).map ShortResult.success = some true := by
  have htotal : ((⌊MAX_SHORT_POSITION_PER_STOCK / (100 : ℚ)⌋).toNat : ℕ) = 100 := by
    norm_num [MAX_SHORT_POSITION_PER_STOCK]
    rfl
  have h : short_in_batches "TSLA" 100 true (fun _ => TrancheOutcome.exn "boom") =
      some (ShortResult.filled "TSLA" 0 0
        [{ batch := 1, shares := 0, fill_price := 0, error := some "boom" },
         { batch := 2, shares := 0, fill_price := 0, error := some "boom" },
         { batch := 3, shares := 0, fill_price := 0, error := some "boom" }]) := by
    simp only [short_in_batches, htotal]
    norm_num [BATCH_SIZES, List.range_succ, trancheRecord, safeDiv, round2,
      List.filter]
  exact ⟨h, by rw [h]; rfl⟩

/-- C9: whenever no tranche records a positive fill price, the average
computation's denominator `max(count, 1)` is 1, so `short_in_batches`
returns normally (no `ZeroDivisionError`) and any success result it
produces carries `avg_fill_price = 0`. -/
theorem short_in_batches_avg_total (ticker : String) (entry : ℚ) (connected : Bool)
    (outcomes : ℕ → TrancheOutcome)
    (h : ∀ i < 3, (outcomes i).fill ≤ 0) :
    ∃ r, short_in_batches ticker entry connected outcomes = some r ∧
      ∀ tk n a b, r = ShortResult.filled tk n a b → a = 0 := by
  have hfill : ∀ i s, (trancheRecord i s (outcomes i)).fill_price = (outcomes i).fill := by
    intro i s
    cases outcomes i <;> rfl
  unfold short_in_batches
  by_cases h1 : entry ≤ 0
  · rw [if_pos h1]
    exact ⟨_, rfl, fun tk n a b hh => by cases hh⟩
  rw [if_neg h1]
  by_cases h2 : (⌊MAX_SHORT_POSITION_PER_STOCK / entry⌋).toNat < 3
  · rw [if_pos h2]
    exact ⟨_, rfl, fun tk n a b hh => by cases hh⟩
  rw [if_neg h2]
  by_cases h3 : connected = true
  · rw [if_neg (by simp [h3])]
    have hf0 : ¬(0 : ℚ) < (outcomes 0).fill := not_lt.mpr (h 0 (by omega))
    have hf1 : ¬(0 : ℚ) < (outcomes 1).fill := not_lt.mpr (h 1 (by omega))
    have hf2 : ¬(0 : ℚ) < (outcomes 2).fill := not_lt.mpr (h 2 (by omega))
    simp [BATCH_SIZES, List.range_succ, hfill, hf0, hf1, hf2, safeDiv, round2]
    intro tk n a b _ _ ha _
    exact ha.symm
  · rw [if_pos (by simp [h3])]
    exact ⟨_, rfl, fun tk n a b hh => by cases hh⟩

/-- Witness for `short_in_batches_avg_total`: all three tranches report
order status with no fill price. -/
theorem short_in_batches_avg_total_witness :
    ∃ r, short_in_batches "NVDA" 50 true (fun _ => TrancheOutcome.ok none) = some r ∧
      ∀ tk n a b, r = ShortResult.filled tk n a b → a = 0 :=
  short_in_batches_avg_total "NVDA" 50 true (fun _ => TrancheOutcome.ok none)
    (by intro i hi; interval_cases i <;> norm_num [TrancheOutcome.fill])

theorem monitorLoop_spec (stop target final : ℚ) (ticks : List ℚ) : ∀ i : ℕ,
    (∀ p, ticks.find? (tickTriggers stop target) = some p →
      (monitorLoop stop target final i ticks).price = p ∧
      ((monitorLoop stop target final i ticks).action = ExitAction.stop_loss ↔ stop ≤ p) ∧
      ((monitorLoop stop target final i ticks).action = ExitAction.take_profit ↔ ¬stop ≤ p)) ∧
    (ticks.find? (tickTriggers stop target) = none →
      (monitorLoop stop target final i ticks).action = ExitAction.timeout ∧
      (monitorLoop stop target final i ticks).price = final) := by
  induction ticks with
  | nil =>
    intro i
    constructor
    · intro p hp
      simp at hp
    · intro _
      exact ⟨rfl, rfl⟩
  | cons q rest ih =>
    intro i
    by_cases htr : tickTriggers stop target q = true
    · have hq : 0 < q ∧ (stop ≤ q ∨ q ≤ target) := by
        simpa [tickTriggers] using htr
      have hfind : (q :: rest).find? (tickTriggers stop target) = some q :=
        List.find?_cons_of_pos _ htr
      constructor
      · intro p hp
        rw [hfind] at hp
        injection hp with hpq
        subst hpq
        simp only [monitorLoop]
        rw [if_neg (not_le.mpr hq.1)]
        by_cases hsl : stop ≤ q
        · rw [if_pos hsl]
          refine ⟨rfl, ?_, ?_⟩ <;> simp [hsl]
        · rw [if_neg hsl, if_pos (hq.2.resolve_left hsl)]
          refine ⟨rfl, ?_, ?_⟩ <;> simp [hsl]
      · intro hn
        rw [hfind] at hn
        cases hn
    · have hnot : ¬(0 < q ∧ (stop ≤ q ∨ q ≤ target)) := by
        simpa [tickTriggers] using htr
      have hfind : (q :: rest).find? (tickTriggers stop target) =
          rest.find? (tickTriggers stop target) :=
        List.find?_cons_of_neg _ (by simpa using htr)
      have hloop : monitorLoop stop target final i (q :: rest) =
          monitorLoop stop target final (i + 1) rest := by
        simp only [monitorLoop]
        by_cases h0 : q ≤ 0
        · rw [if_pos h0]
        · rw [if_neg h0]
          have hqpos : 0 < q := not_le.mp h0
          rw [if_neg fun hs => hnot ⟨hqpos, Or.inl hs⟩,
              if_neg fun ht => hnot ⟨hqpos, Or.inr ht⟩]
      rw [hloop, hfind]
      exact ih (i + 1)

/-- C7: the monitor exits on the first tick whose (positive) price
satisfies the stop-loss or take-profit condition; the exit is
`stop_loss` exactly when that first triggering price is at or above the
stop level (even if it, or a later tick, also satisfies take-profit),
`take_profit` otherwise, and `timeout` exactly when no tick in the
holding window triggers either condition. -/
theorem monitor_position_priority (short_price stop_loss : ℚ) (ticks : List ℚ)
    (final : ℚ) :
    (∀ p, ticks.find? (tickTriggers stop_loss (take_profit_target short_price)) = some p →
      (monitor_position short_price stop_loss ticks final).price = p ∧
      ((monitor_position short_price stop_loss ticks final).action = ExitAction.stop_loss ↔
        stop_loss ≤ p) ∧
      ((monitor_position short_price stop_loss ticks final).action = ExitAction.take_profit ↔
        ¬stop_loss ≤ p)) ∧
    (ticks.find? (tickTriggers stop_loss (take_profit_target short_price)) = none →
      (monitor_position short_price stop_loss ticks final).action = ExitAction.timeout ∧
      (monitor_position short_price stop_loss ticks final).price = final) :=
  monitorLoop_spec stop_loss (take_profit_target short_price) final ticks 0

/-- Witness for `monitor_position_priority`: short entry 50 (take-profit
target 48.5), stop 53, prices [60, 40].  The first tick 60 breaches the
stop, so the exit is `stop_loss` even though the later tick 40 would
satisfy take-profit. -/
theorem monitor_position_priority_witness :
    (monitor_position 50 53 [60, 40] 0).action = ExitAction.stop_loss :=
  (((monitor_position_priority 50 53 [60, 40] 0).1 60 (by decide)).2.1).mpr (by decide)

/-- C10: when the batched cover fails with no average cover price in
its result, `execute_cover` still attaches a `profit_loss` computed
with cover price 0.0 — `round(short_price × total_shares, 2)`, a
positive "profit" whenever the position had value — while `success`
stays false. -/
theorem execute_cover_failed_batch_profit (short_price : ℚ) (total_shares : ℕ)
    (m : MonitorResult) (r : CoverBatchResult)
    (hfail : r.success = false) (hnoavg : r.avgCover = none) :
    (execute_cover short_price total_shares m r).profit_loss =
      round2 (short_price * total_shares) ∧
    (execute_cover short_price total_shares m r).success = false := by
  cases r with
  | failure =>
    refine ⟨?_, rfl⟩
    show round2 ((short_price - (0 : ℚ)) * total_shares) = round2 (short_price * total_shares)
    norm_num
  | covered a =>
    simp [CoverBatchResult.avgCover] at hnoavg

/-- Witness for `execute_cover_failed_batch_profit`: the broker is
unreachable, the short was opened at $100 on 30 shares, and the
returned "profit" is $3000 with `success = false`. -/
theorem execute_cover_failed_batch_profit_witness :
    (execute_cover 100 30 { action := ExitAction.timeout, price := 0, days_held := 7 }
      CoverBatchResult.failure).profit_loss = 3000 ∧
    (execute_cover 100 30 { action := ExitAction.timeout, price := 0, days_held := 7 }
      CoverBatchResult.failure).success = false :=
  have h := execute_cover_failed_batch_profit 100 30
    { action := ExitAction.timeout, price := 0, days_held := 7 }
    CoverBatchResult.failure rfl rfl
  ⟨h.1.trans (by norm_num [round2, round_eq]), h.2⟩

theorem chain_of_abort (l : List (AgentState → AgentState)) (s : AgentState)
    (h : s.abort_reason ≠ "") : chain l s = s := by
  cases l with
  | nil => rfl
  | cons n rest => simp [chain, h]

theorem chain_append (l1 l2 : List (AgentState → AgentState)) (s : AgentState) :
    chain (l1 ++ l2) s = chain l2 (chain l1 s) := by
  induction l1 generalizing s with
  | nil => rfl
  | cons n rest ih =>
    by_cases h : s.abort_reason ≠ ""
    · rw [chain_of_abort _ _ h, chain_of_abort _ _ h, chain_of_abort _ _ h]
    · show chain (n :: (rest ++ l2)) s = chain l2 (chain (n :: rest) s)
      simp only [chain, if_neg h]
      exact ih (n s)

theorem stateAfter_succ (env : Env) (k : ℕ) :
    stateAfter env (k + 1) =
      chain (((pipelineNodes env)[k]?).toList) (stateAfter env k) := by
  unfold stateAfter
  rw [List.take_succ, chain_append]

theorem laterUnwritten_mono (k m : ℕ) (s : AgentState) (hkm : k ≤ m)
    (h : laterUnwritten k s) : laterUnwritten m s := by
  unfold laterUnwritten at *
  refine ⟨fun h1 => h.1 (by omega), fun h2 => h.2.1 (by omega),
    fun h3 => h.2.2.1 (by omega), fun h4 => h.2.2.2.1 (by omega),
    fun h5 => h.2.2.2.2.1 (by omega), fun h6 => h.2.2.2.2.2.1 (by omega),
    fun h7 => h.2.2.2.2.2.2 (by omega)⟩

theorem node_step1_pres (env : Env) (s : AgentState) (h : laterUnwritten 1 s) :
    laterUnwritten 1 (node_step1 env s) := by
  unfold laterUnwritten node_step1 at *
  cases env.earnings <;> simp_all

theorem node_step2_pres (env : Env) (s : AgentState) (h : laterUnwritten 2 s) :
    laterUnwritten 2 (node_step2 env s) := by
  unfold laterUnwritten at *
  simp only [node_step2]
  split <;> simp_all

theorem node_step3_pres (env : Env) (s : AgentState) (h : laterUnwritten 3 s) :
    laterUnwritten 3 (node_step3 env s) := by
  unfold laterUnwritten at *
  simp only [node_step3]
  split <;> simp_all

theorem node_step4_pres (env : Env) (s : AgentState) (h : laterUnwritten 4 s) :
    laterUnwritten 4 (node_step4 env s) := by
  unfold laterUnwritten at *
  simp only [node_step4]
  split <;> simp_all

theorem node_step5_pres (env : Env) (s : AgentState) (h : laterUnwritten 5 s) :
    laterUnwritten 5 (node_step5 env s) := by
  unfold laterUnwritten at *
  simp only [node_step5]
  split <;> simp_all

theorem node_step6_pres (env : Env) (s : AgentState) (h : laterUnwritten 6 s) :
    laterUnwritten 6 (node_step6 env s) := by
  unfold laterUnwritten at *
  simp only [node_step6]
  split <;> simp_all

theorem node_step7_pres (env : Env) (s : AgentState) (h : laterUnwritten 7 s) :
    laterUnwritten 7 (node_step7 env s) := by
  unfold laterUnwritten at *
  simp only [node_step7]
  split <;> simp_all

theorem node_step8_9_pres (env : Env) (s : AgentState) (h : laterUnwritten 8 s) :
    laterUnwritten 8 (node_step8_9 env s) := by
  unfold laterUnwritten at *
  simp_all [node_step8_9]

theorem stateAfter_unwritten (env : Env) : ∀ k : ℕ,
    laterUnwritten k (stateAfter env k) := by
  intro k
  induction k with
  | zero =>
    unfold stateAfter laterUnwritten
    exact ⟨fun _ => rfl, fun _ => ⟨rfl, rfl⟩, fun _ => rfl, fun _ => rfl,
      fun _ => rfl, fun _ => rfl, fun _ => ⟨rfl, rfl⟩⟩
  | succ k ih =>
    rw [stateAfter_succ]
    by_cases hk : 8 ≤ k
    · have htriv : ∀ s : AgentState, laterUnwritten (k + 1) s := by
        intro s
        unfold laterUnwritten
        refine ⟨fun h => ?_, fun h => ?_, fun h => ?_, fun h => ?_,
          fun h => ?_, fun h => ?_, fun h => ?_⟩ <;> omega
      exact htriv _
    · have habort : ∀ (n : AgentState → AgentState),
          laterUnwritten (k + 1) (n (stateAfter env k)) →
          laterUnwritten (k + 1) (chain [n] (stateAfter env k)) := by
        intro n hn
        show laterUnwritten (k + 1)
          (if (stateAfter env k).abort_reason ≠ "" then stateAfter env k
           else chain [] (n (stateAfter env k)))
        by_cases ha : (stateAfter env k).abort_reason ≠ ""
        · rw [if_pos ha]
          exact laterUnwritten_mono k (k + 1) _ (by omega) ih
        · rw [if_neg ha]
          exact hn
      have ihsucc : laterUnwritten (k + 1) (stateAfter env k) :=
        laterUnwritten_mono k (k + 1) _ (by omega) ih
      interval_cases k
      · exact habort _ (node_step1_pres env _ ihsucc)
      · exact habort _ (node_step2_pres env _ ihsucc)
      · exact habort _ (node_step3_pres env _ ihsucc)
      · exact habort _ (node_step4_pres env _ ihsucc)
      · exact habort _ (node_step5_pres env _ ihsucc)
      · exact habort _ (node_step6_pres env _ ihsucc)
      · exact habort _ (node_step7_pres env _ ihsucc)
      · exact habort _ (node_step8_9_pres env _ ihsucc)

/-- C8: once any stage of a run sets a non-empty abort reason, the
orchestrator routes directly to END — the final state is exactly the
state at that point — and every later stage's result field is left
unwritten. -/
theorem abort_routes_to_end (env : Env) (k : ℕ) (hk : k < 9)
    (hset : (stateAfter env (k + 1)).abort_reason ≠ "") :
    run_pipeline env = stateAfter env (k + 1) ∧
    laterUnwritten (k + 1) (run_pipeline env) := by
  have h1 : run_pipeline env =
      chain ((pipelineNodes env).drop (k + 1)) (stateAfter env (k + 1)) := by
    unfold run_pipeline stateAfter
    rw [← chain_append, List.take_append_drop]
  have h2 : chain ((pipelineNodes env).drop (k + 1)) (stateAfter env (k + 1)) =
      stateAfter env (k + 1) := chain_of_abort _ _ hset
  refine ⟨h1.trans h2, ?_⟩
  rw [h1.trans h2]
  exact stateAfter_unwritten env (k + 1)

/-- Witness for `abort_routes_to_end`: with an empty earnings calendar,
stage 1 aborts and the run ends with every later result field
unwritten. -/
theorem abort_routes_to_end_witness :
    run_pipeline envAbort1 = stateAfter envAbort1 1 ∧
    laterUnwritten 1 (run_pipeline envAbort1) :=
  abort_routes_to_end envAbort1 0 (by omega) (by decide)
